import Mathlib

set_option autoImplicit false

namespace DemoEngine

/-! Shallow embedding of the demo_engine rendering engine core: resource
identifiers, the resource manager tables, the demo scene, the camera, and
the per-frame render orchestration of the graphics engine. Machine integers
are modelled as natural numbers reduced modulo the word size where the
source can overflow. -/

/-! Model of the 64-bit SipHash-1-3 hash used by the Rust standard library
DefaultHasher, which backs ResourceId::new in src/resources/manager.rs.
Words are kept below 2 ^ 64 explicitly. -/

def M64 : Nat := 2 ^ 64

/-- Wrapping 64-bit addition. -/
def wadd (a b : Nat) : Nat := (a + b) % M64

/-- Left rotation of a 64-bit word. -/
def rotl64 (x n : Nat) : Nat := ((x <<< n) % M64) ||| (x >>> (64 - n))

structure SipState where
  v0 : Nat
  v1 : Nat
  v2 : Nat
  v3 : Nat

/-- One SIPROUND permutation of the four-word state. -/
def sipRound (s : SipState) : SipState :=
  let v0 := wadd s.v0 s.v1
  let v1 := rotl64 s.v1 13
  let v1 := v1 ^^^ v0
  let v0 := rotl64 v0 32
  let v2 := wadd s.v2 s.v3
  let v3 := rotl64 s.v3 16
  let v3 := v3 ^^^ v2
  let v0 := wadd v0 v3
  let v3 := rotl64 v3 21
  let v3 := v3 ^^^ v0
  let v2 := wadd v2 v1
  let v1 := rotl64 v1 17
  let v1 := v1 ^^^ v2
  let v2 := rotl64 v2 32
  ⟨v0, v1, v2, v3⟩

/-- Compression of one message word: one round for SipHash-1-3. -/
def sipCompress (s : SipState) (m : Nat) : SipState :=
  let s := { s with v3 := s.v3 ^^^ m }
  let s := sipRound s
  { s with v0 := s.v0 ^^^ m }

/-- Little-endian word value of a list of bytes. -/
def leWord : List Nat → Nat
  | [] => 0
  | b :: bs => b + (leWord bs <<< 8)

/-- Initial state for keys k0 = k1 = 0, as DefaultHasher::new uses. -/
def sipInit : SipState :=
  ⟨0x736f6d6570736575, 0x646f72616e646f6d, 0x6c7967656e657261, 0x7465646279746573⟩

/-- Finalization: three rounds after xoring 0xff into v2. -/
def sipFinish (s : SipState) : Nat :=
  let s := { s with v2 := s.v2 ^^^ 0xff }
  let s := sipRound (sipRound (sipRound s))
  (s.v0 ^^^ s.v1) ^^^ (s.v2 ^^^ s.v3)

/-- Consume the message eight bytes at a time; the final word packs the
remaining bytes with the total length in the top byte. -/
def sipBlocks (s : SipState) (len : Nat) : List Nat → Nat
  | b0 :: b1 :: b2 :: b3 :: b4 :: b5 :: b6 :: b7 :: rest =>
      sipBlocks (sipCompress s (leWord [b0, b1, b2, b3, b4, b5, b6, b7])) len rest
  | tail =>
      sipFinish (sipCompress s (leWord tail + ((len % 256) <<< 56)))

def sipHash13 (msg : List Nat) : Nat := sipBlocks sipInit msg.length msg

/-- UTF-8 encoding of one unicode code point. -/
def utf8Bytes (c : Nat) : List Nat :=
  if c < 0x80 then [c]
  else if c < 0x800 then
    [0xC0 ||| (c >>> 6), 0x80 ||| (c &&& 0x3F)]
  else if c < 0x10000 then
    [0xE0 ||| (c >>> 12), 0x80 ||| ((c >>> 6) &&& 0x3F), 0x80 ||| (c &&& 0x3F)]
  else
    [0xF0 ||| (c >>> 18), 0x80 ||| ((c >>> 12) &&& 0x3F),
     0x80 ||| ((c >>> 6) &&& 0x3F), 0x80 ||| (c &&& 0x3F)]

def strBytes (s : String) : List Nat :=
  (s.data.map fun c => utf8Bytes c.toNat).flatten

/-- Hash of a Rust str as fed to DefaultHasher: the UTF-8 bytes of the
string followed by one 0xff terminator byte. -/
def rustStrHash (s : String) : Nat :=
  sipHash13 (strBytes s ++ [0xff])

/-- Stable hash-based logical identifier for named GPU resources,
from ResourceId in src/resources/manager.rs. -/
structure ResourceId where
  val : Nat
deriving DecidableEq

/-- ResourceId::new derives the id deterministically from the name via
DefaultHasher over the str bytes. -/
def ResourceId.new (name : String) : ResourceId :=
  ⟨rustStrHash name⟩

example : rustStrHash ("a") = rustStrHash ("a") := rfl

example : ResourceId.new ("0_vertex") ≠ ResourceId.new ("0_index") := by decide

noncomputable section

/-! Real-valued geometry. The f32 vectors and matrices of glam are modelled
over the real numbers. -/

structure Vec3 where
  x : ℝ
  y : ℝ
  z : ℝ

namespace Vec3

def add (a b : Vec3) : Vec3 := ⟨a.x + b.x, a.y + b.y, a.z + b.z⟩

def sub (a b : Vec3) : Vec3 := ⟨a.x - b.x, a.y - b.y, a.z - b.z⟩

def smul (k : ℝ) (v : Vec3) : Vec3 := ⟨k * v.x, k * v.y, k * v.z⟩

def dot (a b : Vec3) : ℝ := a.x * b.x + a.y * b.y + a.z * b.z

def cross (a b : Vec3) : Vec3 :=
  ⟨a.y * b.z - a.z * b.y, a.z * b.x - a.x * b.z, a.x * b.y - a.y * b.x⟩

def length (v : Vec3) : ℝ := Real.sqrt (dot v v)

/-- glam Vec3::normalize multiplies by the reciprocal length. -/
def normalize (v : Vec3) : Vec3 := smul (1 / length v) v

end Vec3

instance : Add Vec3 := ⟨Vec3.add⟩

instance : Sub Vec3 := ⟨Vec3.sub⟩

instance : SMul ℝ Vec3 := ⟨Vec3.smul⟩

structure Vec2 where
  x : ℝ
  y : ℝ

structure Quat where
  x : ℝ
  y : ℝ
  z : ℝ
  w : ℝ

def Quat.identity : Quat := ⟨0, 0, 0, 1⟩

/-- Transform from src/scene/transform.rs: position, rotation, scale. -/
structure Transform where
  position : Vec3
  rotation : Quat
  scale : Vec3

def Transform.new : Transform := ⟨⟨0, 0, 0⟩, Quat.identity, ⟨1, 1, 1⟩⟩

def Transform.with_position (t : Transform) (position : Vec3) : Transform :=
  { t with position := position }

def Transform.set_position (t : Transform) (position : Vec3) : Transform :=
  { t with position := position }

/-- glam Mat3::from_rotation_y applied to a vector. -/
def rotY (a : ℝ) (v : Vec3) : Vec3 :=
  ⟨Real.cos a * v.x + Real.sin a * v.z, v.y,
   -Real.sin a * v.x + Real.cos a * v.z⟩

/-- glam Mat3::from_axis_angle applied to a vector, for a unit axis
(Rodrigues rotation formula). -/
def rotAxisAngle (axis : Vec3) (a : ℝ) (v : Vec3) : Vec3 :=
  (Real.cos a) • v + (Real.sin a) • (axis.cross v) +
    ((1 - Real.cos a) * axis.dot v) • axis

abbrev Mat4 := Matrix (Fin 4) (Fin 4) ℝ

/-- glam Mat4::look_at_rh built from eye, center and up. -/
def lookAtRh (eye center up : Vec3) : Mat4 :=
  let f := (center - eye).normalize
  let s := (f.cross up).normalize
  let u := s.cross f
  !![s.x, s.y, s.z, -(s.dot eye);
     u.x, u.y, u.z, -(u.dot eye);
     -f.x, -f.y, -f.z, f.dot eye;
     0, 0, 0, 1]

/-- glam Mat4::perspective_rh from vertical field of view, aspect ratio and
clip planes. -/
def perspectiveRh (fovy aspect znear zfar : ℝ) : Mat4 :=
  let h := Real.cos (fovy / 2) / Real.sin (fovy / 2)
  let w := h / aspect
  let r := zfar / (znear - zfar)
  !![w, 0, 0, 0;
     0, h, 0, 0;
     0, 0, r, r * znear;
     0, 0, -1, 0]

/-- CameraConfig from src/core/config.rs. -/
structure CameraConfig where
  fov_degrees : ℝ
  znear : ℝ
  zfar : ℝ

/-- MovementConfig from src/core/config.rs. -/
structure MovementConfig where
  move_speed : ℝ
  rotation_speed : ℝ
  mouse_sensitivity : ℝ

/-- Camera from src/scene/camera.rs. -/
structure Camera where
  eye : Vec3
  target : Vec3
  up : Vec3
  aspect : ℝ
  fovy : ℝ
  znear : ℝ
  zfar : ℝ

namespace Camera

def new (aspect : ℝ) (config : CameraConfig) : Camera :=
  { eye := ⟨0, 0, 3⟩
    target := ⟨0, 0, 0⟩
    up := ⟨0, 1, 0⟩
    aspect := aspect
    fovy := config.fov_degrees * (Real.pi / 180)
    znear := config.znear
    zfar := config.zfar }

def build_view_proj_matrix (c : Camera) : Mat4 :=
  let veiw := lookAtRh c.eye c.target c.up
  let proj := perspectiveRh c.fovy c.aspect c.znear c.zfar
  proj * veiw

def move_forward (c : Camera) (delta : ℝ) : Camera :=
  let forward := (c.target - c.eye).normalize
  { c with eye := c.eye + delta • forward, target := c.target + delta • forward }

def move_right (c : Camera) (delta : ℝ) : Camera :=
  let forward := (c.target - c.eye).normalize
  let right := (forward.cross c.up).normalize
  { c with eye := c.eye + delta • right, target := c.target + delta • right }

def move_up (c : Camera) (delta : ℝ) : Camera :=
  { c with eye := c.eye + delta • c.up, target := c.target + delta • c.up }

def rotate_horizontal (c : Camera) (angle : ℝ) : Camera :=
  let direction := c.target - c.eye
  let new_direction := rotY angle direction
  { c with target := c.eye + new_direction }

def rotate_vertical (c : Camera) (angle : ℝ) : Camera :=
  let forward := (c.target - c.eye).normalize
  let right := (forward.cross c.up).normalize
  let new_direction := rotAxisAngle right angle forward
  { c with target := c.eye + new_direction }

end Camera

/-- CameraUniform from src/resources/uniforms/mod.rs: the GPU mirror of the
derived view-projection matrix. -/
structure CameraUniform where
  view_proj : Mat4

def CameraUniform.new : CameraUniform := ⟨1⟩

def CameraUniform.update_view_proj (_u : CameraUniform) (camera : Camera) :
    CameraUniform :=
  ⟨camera.build_view_proj_matrix⟩

/-! Input state, from src/input/mod.rs. Only the keyboard part is consumed
by the scene; mouse state is carried along unchanged. -/

inductive KeyCode where
  | keyW | keyA | keyS | keyD | keyQ | keyE
  | arrowLeft | arrowRight | arrowUp | arrowDown
  | otherKey (code : Nat)
deriving DecidableEq

structure InputState where
  keys_pressed : List KeyCode
  mouse_posittion : Vec2
  mouse_delta : Vec2

def InputState.is_key_pressed (s : InputState) (key : KeyCode) : Bool :=
  decide (key ∈ s.keys_pressed)

/-! GPU handle types. The wgpu objects are opaque; the model records the
descriptor data the source passes at creation plus a fresh handle number
standing for the allocation identity of the Arc-shared object. -/

/-- EngineError from src/core/error.rs. -/
inductive EngineError where
  | WindowCreation (msg : String)
  | AdapterRequest (msg : String)
  | DeviceRequest (msg : String)
  | SurfaceCreation (msg : String)
  | SurfaceConfiguration (msg : String)
  | RenderError (msg : String)
  | ResourceNotFound (msg : String)
  | ShaderCompilation (msg : String)
  | BufferCreation (msg : String)
  | PipelineCreation (msg : String)
  | EventLoopCreation (msg : String)
  | EventLoopRun (msg : String)
deriving DecidableEq

structure TextureFormat where
  code : Nat
deriving DecidableEq

structure BufferUsages where
  vertex : Bool
  index : Bool
  uniform : Bool
  copy_dst : Bool
deriving DecidableEq

def BufferUsages.VERTEX : BufferUsages := ⟨true, false, false, false⟩

def BufferUsages.INDEX : BufferUsages := ⟨false, true, false, false⟩

def BufferUsages.UNIFORM_COPY_DST : BufferUsages := ⟨false, false, true, true⟩

/-- Data written into a GPU buffer at creation or by a queue write: either
raw bytes or the byte image of one camera uniform value. -/
inductive GpuData where
  | bytes (data : List Nat)
  | camera (u : CameraUniform)

structure Buffer where
  handle : Nat
  label : Option String
  usage : BufferUsages
  contents : GpuData

structure Mesh where
  vertex_buffer : Buffer
  index_buffer : Option Buffer
  vertex_count : Nat
  index_count : Nat

structure ShaderModule where
  handle : Nat
  label : Option String
  source : String

structure BindGroupLayout where
  handle : Nat
  label : Option String

structure BindGroupEntry where
  binding : Nat
  buffer : Buffer

structure BindGroup where
  handle : Nat
  label : Option String
  layout : BindGroupLayout
  entries : List BindGroupEntry

structure PipelineLayout where
  handle : Nat
  label : Option String
  bind_group_layouts : List BindGroupLayout

structure VertexBufferLayout where
  array_stride : Nat
  attribute_offsets : List Nat
deriving DecidableEq

/-- RenderPipeline records the descriptor fields create_pipeline fixes:
alpha blending on, back-face culling, counter-clockwise front face,
single-sample, no depth or stencil. -/
structure RenderPipeline where
  handle : Nat
  layout : PipelineLayout
  shader : ShaderModule
  vertex_layout : VertexBufferLayout
  format : TextureFormat
  alpha_blending : Bool
  cull_back : Bool
  front_ccw : Bool
  sample_count : Nat
  depth_stencil : Bool

/-- Allocation-state model of the shared wgpu Device: each creation call
hands out the next fresh handle number. -/
structure Device where
  next_handle : Nat

def Device.fresh (d : Device) : Nat × Device :=
  (d.next_handle, ⟨d.next_handle + 1⟩)

def Device.create_buffer_init (d : Device) (label : Option String)
    (usage : BufferUsages) (contents : GpuData) : Buffer × Device :=
  let (h, d) := d.fresh
  (⟨h, label, usage, contents⟩, d)

def Device.create_shader_module (d : Device) (label : Option String)
    (source : String) : ShaderModule × Device :=
  let (h, d) := d.fresh
  (⟨h, label, source⟩, d)

def Device.create_bind_group_layout (d : Device) (label : Option String) :
    BindGroupLayout × Device :=
  let (h, d) := d.fresh
  (⟨h, label⟩, d)

def Device.create_pipeline_layout (d : Device) (label : Option String)
    (bind_group_layouts : List BindGroupLayout) : PipelineLayout × Device :=
  let (h, d) := d.fresh
  (⟨h, label, bind_group_layouts⟩, d)

def Device.create_render_pipeline (d : Device) (layout : PipelineLayout)
    (shader : ShaderModule) (vertex_layout : VertexBufferLayout)
    (format : TextureFormat) : RenderPipeline × Device :=
  let (h, d) := d.fresh
  (⟨h, layout, shader, vertex_layout, format, true, true, true, 1, false⟩, d)

def Device.create_bind_group (d : Device) (label : Option String)
    (layout : BindGroupLayout) (entries : List BindGroupEntry) :
    BindGroup × Device :=
  let (h, d) := d.fresh
  (⟨h, label, layout, entries⟩, d)

/-- One queue.write_buffer call issued to the GPU. -/
structure WriteCmd where
  buffer : Buffer
  offset : Nat
  data : GpuData

/-! The HashMap tables of the resource manager, modelled as association
lists where insert replaces an existing binding for the same key. -/

abbrev Table (α : Type) : Type := List (ResourceId × α)

def Table.lookup {α : Type} : Table α → ResourceId → Option α
  | [], _ => none
  | (k, v) :: rest, id => if k = id then some v else Table.lookup rest id

def Table.insert {α : Type} : Table α → ResourceId → α → Table α
  | [], id, v => [(id, v)]
  | (k, w) :: rest, id, v =>
      if k = id then (id, v) :: rest else (k, w) :: Table.insert rest id v

/-- ResourceManager from src/resources/manager.rs. The shared queue is
modelled by the list of buffer writes issued through it. -/
structure ResourceManager where
  device : Device
  queue_writes : List WriteCmd
  surface_format : TextureFormat
  buffers : Table Buffer
  pipelines : Table RenderPipeline
  shaders : Table ShaderModule
  meshes : Table Mesh
  bind_groups : Table BindGroup

namespace ResourceManager

def new (device : Device) (surface_format : TextureFormat) : ResourceManager :=
  ⟨device, [], surface_format, [], [], [], [], []⟩

/-- create_buffer_with_data: the Rust body builds the buffer, stores it and
returns Ok unconditionally, so the model returns the pair directly. -/
def create_buffer_with_data (rm : ResourceManager) (id : ResourceId)
    (data : List Nat) (usage : BufferUsages) (label : Option String) :
    Buffer × ResourceManager :=
  let (buffer, device) := rm.device.create_buffer_init label usage (.bytes data)
  (buffer, { rm with device := device,
                     buffers := Table.insert rm.buffers id buffer })

/-- create_uniform_buffer: uniform usage plus copy destination, initialized
from the byte image of one plain-old-data value; Ok unconditionally. -/
def create_uniform_buffer (rm : ResourceManager) (id : ResourceId)
    (data : GpuData) : Buffer × ResourceManager :=
  let (buffer, device) := rm.device.create_buffer_init (some ("Uniform Buffer"))
      BufferUsages.UNIFORM_COPY_DST data
  (buffer, { rm with device := device,
                     buffers := Table.insert rm.buffers id buffer })

/-- update_uniform_buffer issues one full-overwrite queue write at offset 0
to an existing buffer; no table changes. -/
def update_uniform_buffer (rm : ResourceManager) (buffer : Buffer)
    (data : GpuData) : ResourceManager :=
  { rm with queue_writes := rm.queue_writes ++ [⟨buffer, 0, data⟩] }

/-- create_shader compiles the source into a module and stores it by id;
the Rust body returns Ok unconditionally. -/
def create_shader (rm : ResourceManager) (id : ResourceId) (source : String)
    (label : Option String) : ShaderModule × ResourceManager :=
  let (shader, device) := rm.device.create_shader_module label source
  (shader, { rm with device := device,
                     shaders := Table.insert rm.shaders id shader })

/-- create_pipeline looks the shader up by id, failing with
ResourceNotFound when absent, then builds the pipeline layout and the
render pipeline and stores the pipeline by id. -/
def create_pipeline (rm : ResourceManager) (id shader_id : ResourceId)
    (vertex_layout : VertexBufferLayout) (surface_format : TextureFormat)
    (bind_group_layouts : List BindGroupLayout) :
    Except EngineError RenderPipeline × ResourceManager :=
  match Table.lookup rm.shaders shader_id with
  | none =>
      (.error (.ResourceNotFound
        ("Shader not found: ResourceId(" ++ toString shader_id.val ++ ")")), rm)
  | some shader =>
      let (pipeline_layout, device) :=
        rm.device.create_pipeline_layout (some ("Render Pipeline Layout"))
          bind_group_layouts
      let (pipeline, device) :=
        device.create_render_pipeline pipeline_layout shader vertex_layout
          surface_format
      (.ok pipeline, { rm with device := device,
                               pipelines := Table.insert rm.pipelines id pipeline })

/-- create_bind_group binds the entries to the layout and stores the group
by id; Ok unconditionally. -/
def create_bind_group (rm : ResourceManager) (id : ResourceId)
    (layout : BindGroupLayout) (entries : List BindGroupEntry) :
    BindGroup × ResourceManager :=
  let (bind_group, device) :=
    rm.device.create_bind_group (some ("Camera Bind Group")) layout entries
  (bind_group, { rm with device := device,
                         bind_groups := Table.insert rm.bind_groups id bind_group })

def get_bind_group (rm : ResourceManager) (id : ResourceId) : Option BindGroup :=
  Table.lookup rm.bind_groups id

/-- register_mesh stores the mesh under id and indexes its vertex buffer,
and its index buffer when present, under sub-ids hashed from the decimal
value of id with the suffixes _vertex and _index. -/
def register_mesh (rm : ResourceManager) (id : ResourceId) (mesh : Mesh) :
    ResourceManager :=
  let rm := { rm with buffers := (Table.insert rm.buffers
      (ResourceId.new (toString id.val ++ "_vertex")) mesh.vertex_buffer) }
  let rm :=
    match mesh.index_buffer with
    | some index_buffer =>
        { rm with buffers := (Table.insert rm.buffers
            (ResourceId.new (toString id.val ++ "_index")) index_buffer) }
    | none => rm
  { rm with meshes := Table.insert rm.meshes id mesh }

def get_device (rm : ResourceManager) : Device := rm.device

def get_surface_format (rm : ResourceManager) : TextureFormat :=
  rm.surface_format

def get_buffer (rm : ResourceManager) (id : ResourceId) : Option Buffer :=
  Table.lookup rm.buffers id

def get_pipeline (rm : ResourceManager) (id : ResourceId) :
    Option RenderPipeline :=
  Table.lookup rm.pipelines id

def get_shader (rm : ResourceManager) (id : ResourceId) : Option ShaderModule :=
  Table.lookup rm.shaders id

def get_mesh (rm : ResourceManager) (id : ResourceId) : Option Mesh :=
  Table.lookup rm.meshes id

end ResourceManager

/-! Render objects and their process-global id counter,
from src/scene/render_object.rs. -/

structure ObjectId where
  val : Nat
deriving DecidableEq

/-- Initial value of the static NEXT_OBJECT_ID atomic counter. -/
def NEXT_OBJECT_ID : Nat := 1

/-- AtomicU32::fetch_add(1) on the counter: returns the previous value and
stores the successor wrapped to 32 bits. -/
def ObjectId.generate (counter : Nat) : ObjectId × Nat :=
  (⟨counter⟩, (counter + 1) % 2 ^ 32)

/-- Counter contents after n generate calls from process start. -/
def objectIdCounterAfter : Nat → Nat
  | 0 => NEXT_OBJECT_ID
  | n + 1 => (ObjectId.generate (objectIdCounterAfter n)).2

/-- The id returned by the n-th generate call, counting from 0. -/
def objectIdAt (n : Nat) : ObjectId :=
  (ObjectId.generate (objectIdCounterAfter n)).1

structure RenderObject where
  mesh_id : ResourceId
  pipeline_id : ResourceId
  transform : Transform
  visible : Bool
  id : ObjectId
  model_buffer : Option Buffer
  model_bind_group : Option BindGroup

/-- RenderObject::new draws a fresh id from the global counter, passed and
returned here explicitly. -/
def RenderObject.new (mesh_id pipeline_id : ResourceId) (counter : Nat) :
    RenderObject × Nat :=
  let (id, counter) := ObjectId.generate counter
  (⟨mesh_id, pipeline_id, Transform.new, true, id, none, none⟩, counter)

def RenderObject.with_transform (o : RenderObject) (transform : Transform) :
    RenderObject :=
  { o with transform := transform }

def RenderObject.set_visible (o : RenderObject) (visible : Bool) :
    RenderObject :=
  { o with visible := visible }

/-! Configuration records from src/core/config.rs. -/

structure WindowConfig where
  width : Nat
  height : Nat
  title : String
  resizable : Bool

structure RenderingConfig where
  clear_color : Vec2 × Vec2
  vsync : Bool
  msaa_samples : Nat

structure AppConfig where
  window : WindowConfig
  camera : CameraConfig
  movement : MovementConfig
  rendering : RenderingConfig

/-! DemoScene, from src/scene/demo_scene.rs. -/

/-- Modelled from the spec: the WGSL text embedded with include_str from
assets/shaders/basic/triangle.wgsl, a file absent from the source snapshot.
Its contents are opaque to the model; only its identity matters. -/
def basicShaderWgsl : String := "basic triangle shader source"

/-- Modelled from the spec: the vertex layout descriptor returned by
ColorVertex::desc in src/resources/vertex.rs, a file absent from the source
snapshot; the spec describes it as a position plus color attribute layout
whose offsets and formats must match the shader exactly. -/
def ColorVertexDesc : VertexBufferLayout := ⟨28, [0, 12]⟩

structure DemoScene where
  render_objects : List RenderObject
  camera : Camera
  camera_uniform : CameraUniform
  camera_buffer : Option Buffer
  camera_bind_group : Option BindGroup
  initialized : Bool
  config : MovementConfig
  resource_manager : Option ResourceManager
  pipeline_id : ResourceId

namespace DemoScene

def new (aspect : ℝ) (config : AppConfig) : DemoScene :=
  { render_objects := []
    camera := Camera.new aspect config.camera
    camera_uniform := CameraUniform.new
    camera_buffer := none
    camera_bind_group := none
    initialized := false
    config := config.movement
    resource_manager := none
    pipeline_id := ResourceId.new ("basic_pipeline") }

/-- Models DemoScene::initialize (renamed because initialize is a reserved
word here). Guarded by the initialized flag; on first call it stores the
resource manager, creates the shared shader, bind group layout, pipeline,
camera uniform buffer and camera bind group, and sets the flag. The dead
error branch of the shader creation in the source is dropped because
create_shader returns Ok unconditionally. -/
def init_scene (s : DemoScene) (resource_manager : ResourceManager) :
    DemoScene :=
  if s.initialized then s
  else
    let rm := resource_manager
    let shader_id := ResourceId.new ("basic_shader")
    let (_, rm) :=
      ResourceManager.create_shader rm shader_id basicShaderWgsl
        (some ("Basic Shader"))
    let (bind_group_layout, dev) :=
      rm.device.create_bind_group_layout
        (some ("Camera Uniform Bind Group Layout"))
    let rm := { rm with device := dev }
    let pipeline_id := s.pipeline_id
    let surface_format := ResourceManager.get_surface_format rm
    match ResourceManager.create_pipeline rm pipeline_id shader_id
        ColorVertexDesc surface_format [bind_group_layout] with
    | (.error _, rm) => { s with resource_manager := some rm }
    | (.ok _, rm) =>
      let camera_uniform :=
        CameraUniform.update_view_proj s.camera_uniform s.camera
      let camera_buffer_id := ResourceId.new ("camera_buffer")
      let (camera_buffer, rm) :=
        ResourceManager.create_uniform_buffer rm camera_buffer_id
          (.camera camera_uniform)
      let bind_group_id := ResourceId.new ("camera_bind_group")
      let (camera_bind_group, rm) :=
        ResourceManager.create_bind_group rm bind_group_id bind_group_layout
          [⟨0, camera_buffer⟩]
      { s with
        resource_manager := some rm
        camera_uniform := camera_uniform
        camera_buffer := some camera_buffer
        camera_bind_group := some camera_bind_group
        initialized := true }

def get_render_objects (s : DemoScene) : List RenderObject :=
  s.render_objects

def get_camera_bind_group (s : DemoScene) : Option BindGroup :=
  s.camera_bind_group

def get_camera_buffer (s : DemoScene) : Option Buffer :=
  s.camera_buffer

def get_camera_uniform (s : DemoScene) : CameraUniform :=
  s.camera_uniform

/-- Modify the first object whose id matches, as the
iter_mut().find pattern in the source does; reports whether one was found. -/
def modifyFirstById (oid : ObjectId) (f : RenderObject → RenderObject) :
    List RenderObject → Bool × List RenderObject
  | [] => (false, [])
  | o :: rest =>
      if o.id = oid then (true, f o :: rest)
      else
        let (found, rest2) := modifyFirstById oid f rest
        (found, o :: rest2)

def move_object (s : DemoScene) (object_id : ObjectId) (position : Vec3) :
    Bool × DemoScene :=
  let (found, objs) := modifyFirstById object_id
      (fun o => { o with transform := o.transform.set_position position })
      s.render_objects
  (found, { s with render_objects := objs })

def remove_object (s : DemoScene) (object_id : ObjectId) :
    Bool × DemoScene :=
  let before_len := s.render_objects.length
  let objs := s.render_objects.filter (fun o => decide (o.id ≠ object_id))
  (decide (objs.length < before_len), { s with render_objects := objs })

def set_object_visible (s : DemoScene) (object_id : ObjectId)
    (visible : Bool) : Bool × DemoScene :=
  let (found, objs) := modifyFirstById object_id
      (fun o => o.set_visible visible) s.render_objects
  (found, { s with render_objects := objs })

/-- update_camera_uniform recomputes the CPU-side uniform from the current
camera and, only when both the camera buffer and the resource manager are
present, issues the GPU buffer write through the queue. -/
def update_camera_uniform (s : DemoScene) : DemoScene :=
  let s := { s with camera_uniform :=
      CameraUniform.update_view_proj s.camera_uniform s.camera }
  match s.camera_buffer, s.resource_manager with
  | some camera_buffer, some rm =>
      { s with resource_manager := (some
          (ResourceManager.update_uniform_buffer rm camera_buffer
            (.camera s.camera_uniform))) }
  | _, _ => s

/-- Per-frame keyboard handling: WASD translation, Q and E vertical motion,
arrow-key rotation, all scaled by the config speeds times dt. -/
def update (s : DemoScene) (dt : ℝ) (input : InputState) : DemoScene :=
  let move_speed := s.config.move_speed * dt
  let rotation_speed := s.config.rotation_speed * dt
  let camera := s.camera
  let camera := if input.is_key_pressed .keyW then
      Camera.move_forward camera move_speed else camera
  let camera := if input.is_key_pressed .keyS then
      Camera.move_forward camera (-move_speed) else camera
  let camera := if input.is_key_pressed .keyA then
      Camera.move_right camera (-move_speed) else camera
  let camera := if input.is_key_pressed .keyD then
      Camera.move_right camera move_speed else camera
  let camera := if input.is_key_pressed .keyQ then
      Camera.move_up camera (-move_speed) else camera
  let camera := if input.is_key_pressed .keyE then
      Camera.move_up camera move_speed else camera
  let camera := if input.is_key_pressed .arrowLeft then
      Camera.rotate_horizontal camera rotation_speed else camera
  let camera := if input.is_key_pressed .arrowRight then
      Camera.rotate_horizontal camera (-rotation_speed) else camera
  let camera := if input.is_key_pressed .arrowUp then
      Camera.rotate_vertical camera rotation_speed else camera
  let camera := if input.is_key_pressed .arrowDown then
      Camera.rotate_vertical camera (-rotation_speed) else camera
  { s with camera := camera }

end DemoScene

/-! The per-frame draw recording shared by Renderer::render_scene in
src/graphics/renderer.rs and the inlined render pass of
GraphicsEngine::render in src/graphics/engine.rs. -/

structure ClearColor where
  r : ℝ
  g : ℝ
  b : ℝ
  a : ℝ

inductive DrawCmd where
  | setBindGroup (slot : Nat) (group : BindGroup)
  | setPipeline (pipeline : RenderPipeline)
  | setVertexBuffer (slot : Nat) (buffer : Buffer)
  | setIndexBuffer (buffer : Buffer)
  | drawIndexed (index_count : Nat)
  | draw (vertex_count : Nat)

/-- Recording for one render object: look up its pipeline and mesh, and
only when both resolve bind them and issue an indexed draw when an index
buffer exists, else a full-range non-indexed draw; otherwise record
nothing. -/
def drawObject (rm : ResourceManager) (o : RenderObject) : List DrawCmd :=
  match ResourceManager.get_pipeline rm o.pipeline_id,
        ResourceManager.get_mesh rm o.mesh_id with
  | some pipeline, some mesh =>
      [.setPipeline pipeline, .setVertexBuffer 0 mesh.vertex_buffer] ++
      (match mesh.index_buffer with
       | some index_buffer =>
           [.setIndexBuffer index_buffer, .drawIndexed mesh.index_count]
       | none => [.draw mesh.vertex_count])
  | _, _ => []

/-- The for loop over the render objects, in list order. -/
def objectLoop (rm : ResourceManager) : List RenderObject → List DrawCmd
  | [] => []
  | o :: rest => drawObject rm o ++ objectLoop rm rest

/-- The camera bind group is set once at slot 0 when the scene has one. -/
def passHeader (scene : DemoScene) : List DrawCmd :=
  match DemoScene.get_camera_bind_group scene with
  | some group => [.setBindGroup 0 group]
  | none => []

/-- One recorded command buffer: a single render pass clearing to the
given color followed by the recorded commands. -/
structure CommandBuffer where
  clear : ClearColor
  cmds : List DrawCmd

structure Renderer where
  device : Device
  clear_color : ClearColor

/-- Renderer::render_scene builds one command buffer with one render pass;
the Rust body returns Ok unconditionally. -/
def Renderer.render_scene (r : Renderer) (scene : DemoScene)
    (rm : ResourceManager) : Except EngineError CommandBuffer :=
  .ok ⟨r.clear_color,
       passHeader scene ++ objectLoop rm (DemoScene.get_render_objects scene)⟩

/-! The presentation surface and the graphics engine,
from src/graphics/engine.rs. -/

structure Frame where
  texture : Nat

/-- The surface: the next acquisition either yields a frame or fails with
the text the source wraps into a RenderError. -/
structure Surface where
  next_frame : Option Frame
  fail_msg : String

def Surface.get_current_texture (s : Surface) : Except EngineError Frame :=
  match s.next_frame with
  | some f => .ok f
  | none => .error (.RenderError
      ("Failed to acquire next surface texture: " ++ s.fail_msg))

/-- The clear color hard-coded in the render pass of GraphicsEngine::render. -/
def engineClearColor : ClearColor := ⟨0.5, 0.2, 0.2, 1⟩

/-- Observable steps of one GraphicsEngine::render call, in the order the
source performs them. -/
inductive FrameEvent where
  | sceneUpdate
  | frameAcquire
  | cameraUniformSync
  | cameraBufferWrite
  | renderPassRecord
  | queueSubmit
  | present
deriving DecidableEq

structure GraphicsEngine where
  resource_manager : ResourceManager
  device : Device
  queue_submits : List CommandBuffer
  surface : Surface
  scene : DemoScene

/-- GraphicsEngine::render, with the trace of its observable steps: scene
update, then frame acquisition (an acquisition failure returns the render
error at once), then camera uniform sync plus the conditional camera
buffer write, then render pass recording, then queue submit, then present. -/
def GraphicsEngine.render (e : GraphicsEngine) (dt : ℝ) (input : InputState) :
    (Except EngineError Unit × GraphicsEngine) × List FrameEvent :=
  let scene := DemoScene.update e.scene dt input
  let trace := [FrameEvent.sceneUpdate]
  match e.surface.get_current_texture with
  | .error err =>
      ((.error err, { e with scene := scene }), trace ++ [.frameAcquire])
  | .ok _frame =>
    let trace := trace ++ [FrameEvent.frameAcquire]
    let scene := DemoScene.update_camera_uniform scene
    let trace := trace ++ [FrameEvent.cameraUniformSync]
    let (rm, trace) :=
      match DemoScene.get_camera_buffer scene with
      | some camera_buffer =>
          (ResourceManager.update_uniform_buffer e.resource_manager
             camera_buffer (.camera (DemoScene.get_camera_uniform scene)),
           trace ++ [FrameEvent.cameraBufferWrite])
      | none => (e.resource_manager, trace)
    let cmds := passHeader scene ++
      objectLoop rm (DemoScene.get_render_objects scene)
    let trace := trace ++ [FrameEvent.renderPassRecord]
    let e := { e with
      scene := scene
      resource_manager := rm
      queue_submits := e.queue_submits ++ [⟨engineClearColor, cmds⟩] }
    let trace := trace ++ [FrameEvent.queueSubmit, FrameEvent.present]
    ((.ok (), e), trace)

/-! Helper lemmas about the association-list tables. -/

theorem Table.lookup_insert_self {α : Type} (t : Table α) (id : ResourceId)
    (v : α) : Table.lookup (Table.insert t id v) id = some v := by
  induction t with
  | nil => simp [Table.insert, Table.lookup]
  | cons kv rest ih =>
      obtain ⟨k, w⟩ := kv
      by_cases hk : k = id
      · simp [Table.insert, Table.lookup, hk]
      · simp [Table.insert, Table.lookup, hk, ih]

theorem Table.lookup_insert_ne {α : Type} (t : Table α) (id id2 : ResourceId)
    (v : α) (h : id ≠ id2) :
    Table.lookup (Table.insert t id v) id2 = Table.lookup t id2 := by
  induction t with
  | nil => simp [Table.insert, Table.lookup, h]
  | cons kv rest ih =>
      obtain ⟨k, w⟩ := kv
      by_cases hk : k = id
      · subst hk
        simp [Table.insert, Table.lookup, h]
      · simp [Table.insert, Table.lookup, hk, ih]

/-! Concrete values used by the witness theorems. -/

def rmW0 : ResourceManager := ResourceManager.new ⟨0⟩ ⟨0⟩

def meshW : Mesh :=
  ⟨⟨10, none, BufferUsages.VERTEX, .bytes []⟩,
   some ⟨11, none, BufferUsages.INDEX, .bytes []⟩, 4, 6⟩

/-- C6: ResourceId.new is deterministic within one process: equal name
strings produce equal ResourceId values. -/
theorem resourceId_new_deterministic (n1 n2 : String) (h : n1 = n2) :
    ResourceId.new n1 = ResourceId.new n2 := by rw [h]

/-- C6 witness: two ids built from equal copies of one concrete string are
equal. -/
theorem resourceId_new_deterministic_witness :
    "basic_pipeline" = "basic_pipeline" ∧
    ResourceId.new ("basic_pipeline") = ResourceId.new ("basic_pipeline") :=
  ⟨rfl, resourceId_new_deterministic ("basic_pipeline") ("basic_pipeline") rfl⟩

/-- C3: create_pipeline with a shader id absent from the shader table
returns a ResourceNotFound error and leaves the whole manager, in
particular the pipeline table, unchanged; moreover create_shader under any
other id never makes that shader id present, so an id never passed to
create_shader stays absent from the table. -/
theorem create_pipeline_missing_shader (rm : ResourceManager)
    (id shader_id : ResourceId) (vl : VertexBufferLayout)
    (fmt : TextureFormat) (bgls : List BindGroupLayout)
    (h : ResourceManager.get_shader rm shader_id = none) :
    ResourceManager.create_pipeline rm id shader_id vl fmt bgls =
      (.error (.ResourceNotFound
        ("Shader not found: ResourceId(" ++ toString shader_id.val ++ ")")),
       rm) ∧
    ResourceManager.get_pipeline
        (ResourceManager.create_pipeline rm id shader_id vl fmt bgls).2 id =
      ResourceManager.get_pipeline rm id ∧
    ∀ (rm2 : ResourceManager) (id2 : ResourceId) (src : String)
      (lbl : Option String), id2 ≠ shader_id →
        ResourceManager.get_shader
          (ResourceManager.create_shader rm2 id2 src lbl).2 shader_id =
        ResourceManager.get_shader rm2 shader_id := by
  unfold ResourceManager.get_shader at h
  have hmain : ResourceManager.create_pipeline rm id shader_id vl fmt bgls =
      (.error (.ResourceNotFound
        ("Shader not found: ResourceId(" ++ toString shader_id.val ++ ")")),
       rm) := by
    unfold ResourceManager.create_pipeline
    rw [h]
  refine ⟨hmain, by rw [hmain], ?_⟩
  intro rm2 id2 src lbl hne
  simp only [ResourceManager.create_shader, ResourceManager.get_shader,
    Device.create_shader_module, Device.fresh]
  exact Table.lookup_insert_ne _ _ _ _ hne

/-- C3 witness at the empty manager with concrete ids. -/
theorem create_pipeline_missing_shader_witness :
    ResourceManager.get_shader rmW0 ⟨7⟩ = none ∧
    ResourceManager.create_pipeline rmW0 ⟨3⟩ ⟨7⟩ ⟨28, [0, 12]⟩ ⟨0⟩ [] =
      (.error (.ResourceNotFound
        ("Shader not found: ResourceId(" ++ toString (7 : Nat) ++ ")")),
       rmW0) :=
  ⟨rfl,
   (create_pipeline_missing_shader rmW0 ⟨3⟩ ⟨7⟩ ⟨28, [0, 12]⟩ ⟨0⟩ [] rfl).1⟩

/-- C7: after register_mesh of a mesh under the id hashed from a logical
name, get_mesh returns that mesh, and the vertex buffer, and index buffer
when present, are retrievable through get_buffer under the sub-ids hashed
from the decimal value of the id with the suffixes _vertex and _index;
both derived keys are computable from the logical name alone. The
hypothesis rules out a hash collision between the two derived keys. -/
theorem register_mesh_lookup (rm : ResourceManager) (name : String)
    (mesh : Mesh)
    (hkeys : ResourceId.new (toString (ResourceId.new name).val ++ "_vertex")
      ≠ ResourceId.new (toString (ResourceId.new name).val ++ "_index")) :
    ResourceManager.get_mesh
        (ResourceManager.register_mesh rm (ResourceId.new name) mesh)
        (ResourceId.new name) = some mesh ∧
    ResourceManager.get_buffer
        (ResourceManager.register_mesh rm (ResourceId.new name) mesh)
        (ResourceId.new (toString (ResourceId.new name).val ++ "_vertex"))
      = some mesh.vertex_buffer ∧
    ∀ ib, mesh.index_buffer = some ib →
      ResourceManager.get_buffer
          (ResourceManager.register_mesh rm (ResourceId.new name) mesh)
          (ResourceId.new (toString (ResourceId.new name).val ++ "_index"))
        = some ib := by
  obtain ⟨vb, oib, vc, ic⟩ := mesh
  cases oib with
  | none =>
      refine ⟨?_, ?_, ?_⟩
      · simp only [ResourceManager.register_mesh, ResourceManager.get_mesh]
        exact Table.lookup_insert_self ..
      · simp only [ResourceManager.register_mesh, ResourceManager.get_buffer]
        exact Table.lookup_insert_self ..
      · intro ib hib
        cases hib
  | some ib0 =>
      refine ⟨?_, ?_, ?_⟩
      · simp only [ResourceManager.register_mesh, ResourceManager.get_mesh]
        exact Table.lookup_insert_self ..
      · simp only [ResourceManager.register_mesh, ResourceManager.get_buffer]
        rw [Table.lookup_insert_ne _ _ _ _ (Ne.symm hkeys)]
        exact Table.lookup_insert_self ..
      · intro ib hib
        obtain rfl : ib0 = ib := by injection hib
        simp only [ResourceManager.register_mesh, ResourceManager.get_buffer]
        exact Table.lookup_insert_self ..

/-- C7 witness at the empty manager, the logical name quad_mesh_0 and a
mesh with an index buffer. -/
theorem register_mesh_lookup_witness :
    (ResourceId.new (toString (ResourceId.new ("quad_mesh_0")).val ++ "_vertex")
      ≠ ResourceId.new
          (toString (ResourceId.new ("quad_mesh_0")).val ++ "_index")) ∧
    ResourceManager.get_buffer
        (ResourceManager.register_mesh rmW0 (ResourceId.new ("quad_mesh_0"))
          meshW)
        (ResourceId.new (toString (ResourceId.new ("quad_mesh_0")).val
          ++ "_vertex"))
      = some meshW.vertex_buffer :=
  ⟨by decide, (register_mesh_lookup rmW0 ("quad_mesh_0") meshW (by decide)).2.1⟩

/-- Closed form of the global object id counter. -/
theorem objectIdCounterAfter_eq (n : Nat) :
    objectIdCounterAfter n = (1 + n) % 2 ^ 32 := by
  induction n with
  | zero => rfl
  | succ n ih =>
      show (objectIdCounterAfter n + 1) % 2 ^ 32 = (1 + (n + 1)) % 2 ^ 32
      rw [ih, Nat.mod_add_mod, Nat.add_assoc]

/-- Closed form of the id returned by the n-th generate call. -/
theorem objectIdAt_eq (n : Nat) : objectIdAt n = ⟨(1 + n) % 2 ^ 32⟩ := by
  unfold objectIdAt ObjectId.generate
  rw [objectIdCounterAfter_eq]

/-- C9 counterexample: the 2 ^ 32-th generate call of a run returns id 0,
smaller than the id 1 of the first call, because the 32-bit counter wraps;
so not every call returns a value strictly greater than all earlier ones. -/
theorem objectId_wrap_counterexample :
    (objectIdAt 0).val = 1 ∧ (objectIdAt (2 ^ 32 - 1)).val = 0 ∧
    ¬ (objectIdAt 0).val < (objectIdAt (2 ^ 32 - 1)).val := by
  have h0 : objectIdAt 0 = ⟨1⟩ := by
    rw [objectIdAt_eq]
    norm_num
  have h1 : objectIdAt (2 ^ 32 - 1) = ⟨0⟩ := by
    rw [objectIdAt_eq]
    norm_num
  rw [h0, h1]
  simp

/-- C9 amended: the counter starts at 1, and as long as strictly fewer than
2 ^ 32 - 1 generate calls have happened the returned ids strictly increase
and never repeat, so no id is reassigned in that range of a run. -/
theorem objectId_monotonic_before_wrap (i j : Nat) (hij : i < j)
    (hj : j < 2 ^ 32 - 1) :
    NEXT_OBJECT_ID = 1 ∧ (objectIdAt 0).val = 1 ∧
    (objectIdAt i).val < (objectIdAt j).val ∧ objectIdAt i ≠ objectIdAt j := by
  have h32 : (2 : Nat) ^ 32 = 4294967296 := by norm_num
  have hi : i < 2 ^ 32 - 1 := lt_trans hij hj
  have hvi : (objectIdAt i).val = 1 + i := by
    rw [objectIdAt_eq]
    exact Nat.mod_eq_of_lt (by omega)
  have hvj : (objectIdAt j).val = 1 + j := by
    rw [objectIdAt_eq]
    exact Nat.mod_eq_of_lt (by omega)
  refine ⟨rfl, by rw [objectIdAt_eq]; norm_num, by omega, ?_⟩
  intro heq
  have := congrArg ObjectId.val heq
  omega

/-- C9 amended witness: the first two generate calls, with ids 1 and 2. -/
theorem objectId_monotonic_before_wrap_witness :
    0 < 1 ∧ 1 < 2 ^ 32 - 1 ∧ (objectIdAt 0).val < (objectIdAt 1).val :=
  ⟨by decide, by norm_num,
   (objectId_monotonic_before_wrap 0 1 (by decide) (by norm_num)).2.2.1⟩

/-! Lemmas about the object CRUD helpers. -/

theorem modifyFirstById_not_found (oid : ObjectId)
    (f : RenderObject → RenderObject) (objs : List RenderObject)
    (h : ∀ o ∈ objs, o.id ≠ oid) :
    DemoScene.modifyFirstById oid f objs = (false, objs) := by
  induction objs with
  | nil => rfl
  | cons o rest ih =>
      have ho : ¬ o.id = oid := h o (List.mem_cons_self o rest)
      have hrest := ih fun o2 ho2 => h o2 (List.mem_cons_of_mem o ho2)
      simp [DemoScene.modifyFirstById, ho, hrest]

theorem modifyFirstById_found (oid : ObjectId)
    (f : RenderObject → RenderObject) (objs : List RenderObject)
    (h : ∃ o ∈ objs, o.id = oid) :
    (DemoScene.modifyFirstById oid f objs).1 = true := by
  induction objs with
  | nil => simp at h
  | cons o rest ih =>
      by_cases ho : o.id = oid
      · simp [DemoScene.modifyFirstById, ho]
      · obtain ⟨o2, ho2, hid⟩ := h
        rcases List.mem_cons.mp ho2 with rfl | hmem
        · exact absurd hid ho
        · have hrest := ih ⟨o2, hmem, hid⟩
          cases hrec : DemoScene.modifyFirstById oid f rest with
          | mk found rest2 =>
              rw [hrec] at hrest
              simp [DemoScene.modifyFirstById, ho, hrec, hrest]

theorem filter_id_ne_of_absent (oid : ObjectId) (objs : List RenderObject)
    (h : ∀ o ∈ objs, o.id ≠ oid) :
    objs.filter (fun o => decide (o.id ≠ oid)) = objs := by
  induction objs with
  | nil => rfl
  | cons o rest ih =>
      have ho : ¬ o.id = oid := h o (List.mem_cons_self o rest)
      simp [List.filter_cons, ho]
      intro a ha
      exact h a (List.mem_cons_of_mem o ha)

theorem filter_id_ne_length_lt_of_present (oid : ObjectId)
    (objs : List RenderObject) (h : ∃ o ∈ objs, o.id = oid) :
    (objs.filter (fun o => decide (o.id ≠ oid))).length < objs.length := by
  induction objs with
  | nil => simp at h
  | cons o rest ih =>
      by_cases ho : o.id = oid
      · have hp : (decide (o.id ≠ oid)) = false := by simp [ho]
        have hle := List.length_filter_le (fun o => decide (o.id ≠ oid)) rest
        simp only [List.filter_cons]
        rw [hp, if_neg (by simp : ¬ (false = true))]
        simp only [List.length_cons]
        omega
      · obtain ⟨o2, ho2, hid⟩ := h
        rcases List.mem_cons.mp ho2 with rfl | hmem
        · exact absurd hid ho
        · have hp : (decide (o.id ≠ oid)) = true := by simp [ho]
          have hlt := ih ⟨o2, hmem, hid⟩
          simp only [List.filter_cons]
          rw [hp, if_pos (rfl : true = true)]
          simp only [List.length_cons]
          omega

/-- C4: for an id absent from the render-object list, move_object,
remove_object and set_object_visible return false and leave the scene, in
particular the render-object list and its length, unchanged; for a present
id each returns true. -/
theorem demoScene_object_crud (s : DemoScene) (oid : ObjectId) (pos : Vec3)
    (vis : Bool) :
    ((∀ o ∈ s.render_objects, o.id ≠ oid) →
      DemoScene.move_object s oid pos = (false, s) ∧
      DemoScene.remove_object s oid = (false, s) ∧
      DemoScene.set_object_visible s oid vis = (false, s)) ∧
    ((∃ o ∈ s.render_objects, o.id = oid) →
      (DemoScene.move_object s oid pos).1 = true ∧
      (DemoScene.remove_object s oid).1 = true ∧
      (DemoScene.set_object_visible s oid vis).1 = true) := by
  constructor
  · intro h
    refine ⟨?_, ?_, ?_⟩
    · unfold DemoScene.move_object
      rw [modifyFirstById_not_found _ _ _ h]
    · unfold DemoScene.remove_object
      rw [filter_id_ne_of_absent _ _ h]
      simp
    · unfold DemoScene.set_object_visible
      rw [modifyFirstById_not_found _ _ _ h]
  · intro h
    refine ⟨?_, ?_, ?_⟩
    · unfold DemoScene.move_object
      cases hrec : DemoScene.modifyFirstById oid
          (fun o => { o with transform := o.transform.set_position pos })
          s.render_objects with
      | mk found objs =>
          have := modifyFirstById_found oid
            (fun o => { o with transform := o.transform.set_position pos })
            s.render_objects h
          rw [hrec] at this
          simpa using this
    · unfold DemoScene.remove_object
      have := filter_id_ne_length_lt_of_present oid s.render_objects h
      simpa using this
    · unfold DemoScene.set_object_visible
      cases hrec : DemoScene.modifyFirstById oid
          (fun o => o.set_visible vis) s.render_objects with
      | mk found objs =>
          have := modifyFirstById_found oid (fun o => o.set_visible vis)
            s.render_objects h
          rw [hrec] at this
          simpa using this

/-! Concrete scenes for the witnesses. -/

def objW : RenderObject := ⟨⟨1⟩, ⟨2⟩, Transform.new, true, ⟨5⟩, none, none⟩

def appConfigW : AppConfig :=
  ⟨⟨800, 600, "Demo Engine", true⟩, ⟨45, 1, 100⟩, ⟨5, 1, 1⟩,
   ⟨(⟨1, 0⟩, ⟨0, 1⟩), true, 1⟩⟩

def sceneW : DemoScene :=
  { DemoScene.new 1 appConfigW with render_objects := [objW] }

def sceneWInit : DemoScene := { sceneW with initialized := true }

def inputW : InputState := ⟨[], ⟨0, 0⟩, ⟨0, 0⟩⟩

/-- C4 witness: removing the never-added id 9 from the one-object scene
returns false and leaves the scene unchanged; the present id 5 returns
true. -/
theorem demoScene_object_crud_witness :
    DemoScene.remove_object sceneW ⟨9⟩ = (false, sceneW) ∧
    (DemoScene.remove_object sceneW ⟨5⟩).1 = true :=
  ⟨((demoScene_object_crud sceneW ⟨9⟩ ⟨0, 0, 0⟩ true).1
      (by
        intro o ho
        have : o = objW := by simpa [sceneW, DemoScene.new] using ho
        subst this
        decide)).2.1,
   ((demoScene_object_crud sceneW ⟨5⟩ ⟨0, 0, 0⟩ true).2
      ⟨objW, by simp [sceneW, DemoScene.new], rfl⟩).2.1⟩

/-- C5: once the initialized flag is set, init_scene is a no-op returning
the scene unchanged, so a later call mutates no scene state and creates no
resources; and no scene operation ever clears the flag, so the scene never
returns to the Uninitialized state. -/
theorem demoScene_initialized_one_way (s : DemoScene) (rm : ResourceManager)
    (dt : ℝ) (input : InputState) (oid : ObjectId) (pos : Vec3) (vis : Bool)
    (h : s.initialized = true) :
    DemoScene.init_scene s rm = s ∧
    (DemoScene.init_scene s rm).initialized = true ∧
    (DemoScene.update s dt input).initialized = true ∧
    (DemoScene.update_camera_uniform s).initialized = true ∧
    (DemoScene.move_object s oid pos).2.initialized = true ∧
    (DemoScene.remove_object s oid).2.initialized = true ∧
    (DemoScene.set_object_visible s oid vis).2.initialized = true := by
  have hno : DemoScene.init_scene s rm = s := by
    unfold DemoScene.init_scene
    rw [if_pos h]
  refine ⟨hno, by rw [hno]; exact h, h, ?_, ?_, h, ?_⟩
  · unfold DemoScene.update_camera_uniform
    cases hb : s.camera_buffer <;> cases hr : s.resource_manager <;>
      simp [hb, hr, h]
  · unfold DemoScene.move_object
    cases hrec : DemoScene.modifyFirstById oid
        (fun o => { o with transform := o.transform.set_position pos })
        s.render_objects with
    | mk found objs => exact h
  · unfold DemoScene.set_object_visible
    cases hrec : DemoScene.modifyFirstById oid
        (fun o => o.set_visible vis) s.render_objects with
    | mk found objs => exact h

/-- C5 witness: a second init_scene call on an already initialized concrete
scene returns it unchanged. -/
theorem demoScene_initialized_one_way_witness :
    sceneWInit.initialized = true ∧
    DemoScene.init_scene sceneWInit rmW0 = sceneWInit :=
  ⟨rfl, (demoScene_initialized_one_way sceneWInit rmW0 0 inputW ⟨5⟩ ⟨0, 0, 0⟩
      true rfl).1⟩

/-- C10: update_camera_uniform on an uninitialized scene (camera buffer and
resource manager both absent) recomputes only the CPU-side camera uniform
from the current camera, issues no GPU buffer write and leaves the
resource-manager state, hence every resource table, unchanged; the model
function is total, so no panic occurs. -/
theorem update_camera_uniform_uninitialized (s : DemoScene)
    (hb : s.camera_buffer = none) (hr : s.resource_manager = none) :
    DemoScene.update_camera_uniform s =
      { s with camera_uniform :=
          CameraUniform.update_view_proj s.camera_uniform s.camera } ∧
    (DemoScene.update_camera_uniform s).resource_manager = none ∧
    (DemoScene.update_camera_uniform s).camera_buffer = none := by
  have hmain : DemoScene.update_camera_uniform s =
      { s with camera_uniform :=
          CameraUniform.update_view_proj s.camera_uniform s.camera } := by
    unfold DemoScene.update_camera_uniform
    simp [hb]
  refine ⟨hmain, ?_, ?_⟩
  · rw [hmain]
    exact hr
  · rw [hmain]
    exact hb

/-- C10 witness: the fresh demo scene before initialization. -/
theorem update_camera_uniform_uninitialized_witness :
    sceneW.camera_buffer = none ∧ sceneW.resource_manager = none ∧
    DemoScene.update_camera_uniform sceneW =
      { sceneW with camera_uniform := (CameraUniform.update_view_proj
          sceneW.camera_uniform sceneW.camera) } :=
  ⟨rfl, rfl, (update_camera_uniform_uninitialized sceneW rfl rfl).1⟩

/-! Camera lemmas. -/

theorem vec3_add_sub_add (a b w : Vec3) : (a + w) - (b + w) = a - b := by
  show Vec3.sub (Vec3.add a w) (Vec3.add b w) = Vec3.sub a b
  simp only [Vec3.add, Vec3.sub, Vec3.mk.injEq]
  refine ⟨by ring, by ring, by ring⟩

/-- C8: move_forward translates eye and target by the same vector, so the
direction vector, and with it the eye-to-target distance, is unchanged for
every delta and every camera whose eye differs from its target. -/
theorem camera_move_forward_preserves_distance (c : Camera) (d : ℝ)
    (h : c.eye ≠ c.target) :
    (Camera.move_forward c d).target - (Camera.move_forward c d).eye
      = c.target - c.eye ∧
    Vec3.length
        ((Camera.move_forward c d).target - (Camera.move_forward c d).eye)
      = Vec3.length (c.target - c.eye) := by
  have hv : (Camera.move_forward c d).target - (Camera.move_forward c d).eye
      = c.target - c.eye := by
    show (c.target + d • (c.target - c.eye).normalize)
        - (c.eye + d • (c.target - c.eye).normalize) = c.target - c.eye
    exact vec3_add_sub_add ..
  exact ⟨hv, by rw [hv]⟩

def cameraW : Camera := ⟨⟨0, 0, 0⟩, ⟨0, 0, 1⟩, ⟨0, 1, 0⟩, 1, 1, 1, 100⟩

/-! Draw-policy helpers for the per-frame object loop. -/

def isDrawCall : DrawCmd → Bool
  | .drawIndexed _ => true
  | .draw _ => true
  | _ => false

/-- An object resolves when both its pipeline and its mesh lookups succeed. -/
def resolves (rm : ResourceManager) (o : RenderObject) : Bool :=
  (ResourceManager.get_pipeline rm o.pipeline_id).isSome &&
  (ResourceManager.get_mesh rm o.mesh_id).isSome

theorem drawObject_draw_count (rm : ResourceManager) (o : RenderObject) :
    ((drawObject rm o).filter isDrawCall).length
      = if resolves rm o = true then 1 else 0 := by
  unfold drawObject resolves
  cases hp : ResourceManager.get_pipeline rm o.pipeline_id with
  | none =>
      cases hm : ResourceManager.get_mesh rm o.mesh_id <;> simp [isDrawCall]
  | some p =>
      cases hm : ResourceManager.get_mesh rm o.mesh_id with
      | none => simp [isDrawCall]
      | some m =>
          obtain ⟨vb, oib, vc, ic⟩ := m
          cases oib <;> simp [isDrawCall]

theorem objectLoop_draw_count (rm : ResourceManager)
    (objs : List RenderObject) :
    ((objectLoop rm objs).filter isDrawCall).length
      = (objs.filter (fun o => resolves rm o)).length := by
  induction objs with
  | nil => rfl
  | cons o rest ih =>
      have hcnt := drawObject_draw_count rm o
      simp only [objectLoop, List.filter_append, List.length_append, ih,
        List.filter_cons]
      by_cases hr : resolves rm o = true
      · rw [hcnt, if_pos hr, hr, if_pos (rfl : true = true)]
        simp only [List.length_cons]
        omega
      · have hr2 : resolves rm o = false := by
          cases hres : resolves rm o
          · rfl
          · exact absurd hres hr
        rw [hcnt, if_neg hr, hr2, if_neg (by simp : ¬ (false = true))]
        omega

theorem passHeader_no_draw (scene : DemoScene) :
    (passHeader scene).filter isDrawCall = [] := by
  unfold passHeader
  cases hb : DemoScene.get_camera_bind_group scene <;> simp [isDrawCall]

theorem drawObject_set_visible (rm : ResourceManager) (o : RenderObject)
    (vis : Bool) : drawObject rm (o.set_visible vis) = drawObject rm o := rfl

theorem objectLoop_set_visible (rm : ResourceManager) (vis : Bool)
    (objs : List RenderObject) :
    objectLoop rm (objs.map (fun o => o.set_visible vis))
      = objectLoop rm objs := by
  induction objs with
  | nil => rfl
  | cons o rest ih => simp [objectLoop, ih, drawObject_set_visible]

/-- C2: render_scene never fails; its one command buffer records a draw
command for exactly as many objects as have both pipeline and mesh ids
resolving in the resource manager; recording for one object is nonempty
precisely when both lookups succeed, so a failed lookup skips the object
without error; and the visible flag plays no role: recording an object
with the flag overwritten, in particular to false, and rendering a scene
whose objects all have the flag overwritten, give the same commands. -/
theorem render_scene_draw_policy (r : Renderer) (scene : DemoScene)
    (rm : ResourceManager) (vis : Bool) :
    (∃ cb : CommandBuffer, Renderer.render_scene r scene rm = .ok cb ∧
      (cb.cmds.filter isDrawCall).length
        = (scene.render_objects.filter (fun o => resolves rm o)).length) ∧
    (∀ o : RenderObject, drawObject rm o ≠ [] ↔ resolves rm o = true) ∧
    (∀ o : RenderObject,
      drawObject rm (o.set_visible vis) = drawObject rm o) ∧
    Renderer.render_scene r
        { scene with render_objects :=
            scene.render_objects.map (fun o => o.set_visible vis) } rm
      = Renderer.render_scene r scene rm := by
  refine ⟨⟨⟨r.clear_color,
      passHeader scene ++ objectLoop rm scene.render_objects⟩, rfl, ?_⟩,
    ?_, fun o => drawObject_set_visible rm o vis, ?_⟩
  · rw [List.filter_append, List.length_append, passHeader_no_draw,
      objectLoop_draw_count]
    simp
  · intro o
    unfold drawObject resolves
    cases hp : ResourceManager.get_pipeline rm o.pipeline_id with
    | none =>
        cases hm : ResourceManager.get_mesh rm o.mesh_id <;> simp
    | some p =>
        cases hm : ResourceManager.get_mesh rm o.mesh_id with
        | none => simp
        | some m =>
            obtain ⟨vb, oib, vc, ic⟩ := m
            cases oib <;> simp
  · simp only [Renderer.render_scene, DemoScene.get_render_objects]
    rw [objectLoop_set_visible]
    rfl

def rendererW : Renderer := ⟨⟨0⟩, engineClearColor⟩

/-- C2 witness: an object with failed lookups in the empty manager records
nothing, whether or not its visible flag is overwritten to false. -/
theorem render_scene_draw_policy_witness :
    drawObject rmW0 (objW.set_visible false) = drawObject rmW0 objW ∧
    drawObject rmW0 objW = [] :=
  ⟨(render_scene_draw_policy rendererW sceneW rmW0 false).2.2.1 objW,
   by
    have h := ((render_scene_draw_policy rendererW sceneW rmW0 false).2.1
      objW)
    by_cases hres : drawObject rmW0 objW = []
    · exact hres
    · exact absurd (h.mp hres) (by decide)⟩

/-! The C1 frame-ordering results. -/

def engineW : GraphicsEngine := ⟨rmW0, ⟨0⟩, [], ⟨some ⟨0⟩, ""⟩, sceneW⟩

def bufW : Buffer := ⟨20, none, BufferUsages.UNIFORM_COPY_DST, .bytes []⟩

def sceneWB : DemoScene :=
  { sceneW with camera_buffer := some bufW, resource_manager := some rmW0 }

def engineWB : GraphicsEngine := ⟨rmW0, ⟨0⟩, [], ⟨some ⟨0⟩, ""⟩, sceneWB⟩

/-- C1 counterexample: in a successful concrete frame the trace of
GraphicsEngine::render places frame acquisition strictly before the camera
uniform sync, so the claimed order, camera-uniform upload before the
surface frame is acquired, is false on the code. -/
theorem engine_render_acquire_before_uniform_sync :
    (GraphicsEngine.render engineW 0 inputW).1.1.isOk = true ∧
    (GraphicsEngine.render engineW 0 inputW).2.indexOf
        FrameEvent.frameAcquire <
      (GraphicsEngine.render engineW 0 inputW).2.indexOf
        FrameEvent.cameraUniformSync ∧
    ¬ ((GraphicsEngine.render engineW 0 inputW).2.indexOf
        FrameEvent.cameraUniformSync <
      (GraphicsEngine.render engineW 0 inputW).2.indexOf
        FrameEvent.frameAcquire) := by
  decide

/-- C1 amended: a successful render call performs scene update, then frame
acquisition, then camera uniform sync with the camera buffer upload
directly after it when a camera buffer exists, then render pass recording,
then queue submit, then present; scene mutation still precedes the
camera-uniform upload, which still precedes render-pass recording. A
failed acquisition ends the call right after the acquisition attempt with
a render error. -/
theorem engine_render_event_order (e : GraphicsEngine) (dt : ℝ)
    (input : InputState) :
    ((GraphicsEngine.render e dt input).1.1.isOk = true →
      ((GraphicsEngine.render e dt input).2.indexOf FrameEvent.sceneUpdate <
        (GraphicsEngine.render e dt input).2.indexOf
          FrameEvent.frameAcquire) ∧
      ((GraphicsEngine.render e dt input).2.indexOf FrameEvent.frameAcquire <
        (GraphicsEngine.render e dt input).2.indexOf
          FrameEvent.cameraUniformSync) ∧
      ((GraphicsEngine.render e dt input).2.indexOf
          FrameEvent.cameraUniformSync <
        (GraphicsEngine.render e dt input).2.indexOf
          FrameEvent.renderPassRecord) ∧
      ((GraphicsEngine.render e dt input).2.indexOf
          FrameEvent.renderPassRecord <
        (GraphicsEngine.render e dt input).2.indexOf
          FrameEvent.queueSubmit) ∧
      ((GraphicsEngine.render e dt input).2.indexOf FrameEvent.queueSubmit <
        (GraphicsEngine.render e dt input).2.indexOf FrameEvent.present) ∧
      ((GraphicsEngine.render e dt input).2.contains
          FrameEvent.cameraBufferWrite = true →
        ((GraphicsEngine.render e dt input).2.indexOf
            FrameEvent.cameraUniformSync <
          (GraphicsEngine.render e dt input).2.indexOf
            FrameEvent.cameraBufferWrite) ∧
        ((GraphicsEngine.render e dt input).2.indexOf
            FrameEvent.cameraBufferWrite <
          (GraphicsEngine.render e dt input).2.indexOf
            FrameEvent.renderPassRecord))) ∧
    ((GraphicsEngine.render e dt input).1.1.isOk = false →
      (GraphicsEngine.render e dt input).2 =
        [FrameEvent.sceneUpdate, FrameEvent.frameAcquire]) := by
  cases hnf : e.surface.next_frame with
  | none =>
      constructor
      · intro hok
        exfalso
        simp [GraphicsEngine.render, Surface.get_current_texture, hnf,
          Except.isOk, Except.toBool] at hok
      · intro _
        simp [GraphicsEngine.render, Surface.get_current_texture, hnf]
  | some f =>
      cases hcb : DemoScene.get_camera_buffer
          (DemoScene.update_camera_uniform
            (DemoScene.update e.scene dt input)) with
      | none =>
          constructor
          · intro _
            simp only [GraphicsEngine.render, Surface.get_current_texture,
              hnf, hcb]
            decide
          · intro hbad
            exfalso
            simp [GraphicsEngine.render, Surface.get_current_texture, hnf,
              hcb, Except.isOk, Except.toBool] at hbad
      | some b =>
          constructor
          · intro _
            simp only [GraphicsEngine.render, Surface.get_current_texture,
              hnf, hcb]
            decide
          · intro hbad
            exfalso
            simp [GraphicsEngine.render, Surface.get_current_texture, hnf,
              hcb, Except.isOk, Except.toBool] at hbad

/-- C1 amended witness: a successful concrete frame whose scene owns a
camera buffer, so the camera buffer upload event occurs. -/
theorem engine_render_event_order_witness :
    (GraphicsEngine.render engineWB 0 inputW).1.1.isOk = true ∧
    (GraphicsEngine.render engineWB 0 inputW).2.contains
        FrameEvent.cameraBufferWrite = true ∧
    ((GraphicsEngine.render engineWB 0 inputW).2.indexOf
        FrameEvent.sceneUpdate <
      (GraphicsEngine.render engineWB 0 inputW).2.indexOf
        FrameEvent.frameAcquire) ∧
    ((GraphicsEngine.render engineWB 0 inputW).2.indexOf
        FrameEvent.cameraUniformSync <
      (GraphicsEngine.render engineWB 0 inputW).2.indexOf
        FrameEvent.cameraBufferWrite) :=
  ⟨by decide, by decide,
   ((engine_render_event_order engineWB 0 inputW).1 (by decide)).1,
   (((engine_render_event_order engineWB 0 inputW).1 (by decide)).2.2.2.2.2
      (by decide)).1⟩

/-- C8 witness: a concrete camera one unit from its target, moved forward
by one unit. -/
theorem camera_move_forward_preserves_distance_witness :
    cameraW.eye ≠ cameraW.target ∧
    Vec3.length ((Camera.move_forward cameraW 1).target
        - (Camera.move_forward cameraW 1).eye)
      = Vec3.length (cameraW.target - cameraW.eye) :=
  ⟨by simp [cameraW, Vec3.mk.injEq],
   (camera_move_forward_preserves_distance cameraW 1
      (by simp [cameraW, Vec3.mk.injEq])).2⟩

end

end DemoEngine
